import Mathlib

/-!
Verification of the image-normalization and diagnosis-request contract of the
Leaf-Disease-Detector application (src/Leaf.py).

The embedding models the two Python functions `input_image_setup` and
`get_gemini_response`, and the submit-button handler that wires them together.
Python exceptions are modelled with `Except`: a raised exception is an
`Except.error` value carrying the exception, and the `try/except` blocks of the
submit handler become a `match` on that value.  The external Gemini service is
a parameter `svc : Service`, a function from the request payload to either the
response text or a raised exception; the payloads actually sent to the service
during a run are collected in a list, so that "zero calls to the external
service" is the statement that this list is empty.
-/

namespace Leaf

/-- Raw binary data (`bytes` in Python), modelled as a list of byte values. -/
abbrev Bytes := List Nat

/-- An uploaded file as the code observes it: `uploaded_file.getvalue()` is the
byte content and `uploaded_file.type` is the MIME type reported by the upload
widget. -/
structure UploadedFile where
  getvalue : Bytes
  type : String
deriving DecidableEq, Repr

/-- One element of the `image_parts` list built by `input_image_setup`:
the Python dict with keys `mime_type` and `data`. -/
structure ImagePart where
  mime_type : String
  data : Bytes
deriving DecidableEq, Repr

/-- The Python exceptions that can flow through the embedded fragment:
`FileNotFoundError` raised by `input_image_setup` (with its message),
`IndexError` from indexing an empty `image_parts` list, and an arbitrary
exception raised by the external service call, carrying its message text. -/
inductive PyExc
  | fileNotFoundError (msg : String)
  | indexError
  | serviceExc (cause : String)
deriving DecidableEq, Repr

/-- `str(e)` for the exceptions above, as used by the f-strings of the
submit handler's `except` blocks. -/
def PyExc.message : PyExc → String
  | .fileNotFoundError msg => msg
  | .indexError => "list index out of range"
  | .serviceExc cause => cause

/-- One element of the list passed to `model.generate_content`: either the
text prompt or an image part. -/
inductive ContentItem
  | text (s : String)
  | image (p : ImagePart)
deriving DecidableEq, Repr

/-- The request payload handed to the external service in one call. -/
abbrev Payload := List ContentItem

/-- The external model service (`model.generate_content` followed by
`response.text`), as an opaque function from the payload to either the
response text or a raised exception. -/
abbrev Service := Payload → Except PyExc String

/-- Embedding of `input_image_setup(uploaded_file, captured_image_bytes)`
(src/Leaf.py lines 29-54).  If an uploaded file is present its bytes and
reported type are used; otherwise, if captured bytes are present they are used
with the fixed MIME type "image/jpeg"; otherwise `FileNotFoundError` is
raised.  On success the returned value is the one-element `image_parts`
list. -/
def input_image_setup (uploaded_file : Option UploadedFile)
    (captured_image_bytes : Option Bytes) : Except PyExc (List ImagePart) :=
  match uploaded_file with
  | some f => Except.ok [{ mime_type := f.type, data := f.getvalue }]
  | none =>
    match captured_image_bytes with
    | some b => Except.ok [{ mime_type := "image/jpeg", data := b }]
    | none => Except.error (.fileNotFoundError "No file uploaded or image captured.")

/-- Embedding of `get_gemini_response(input_prompt, image_parts)`
(src/Leaf.py lines 19-27).  The function sends
`[input_prompt, image_parts[0]]` to the service and returns `response.text`
unchanged.  The first component is the function's result (the returned string,
or the raised exception); the second records the payloads actually sent to the
external service, so an empty list means the service was never invoked.
Indexing `image_parts[0]` on an empty list raises `IndexError` before any
call is made. -/
def get_gemini_response (svc : Service) (input_prompt : String)
    (image_parts : List ImagePart) : Except PyExc String × List Payload :=
  match image_parts with
  | [] => (Except.error .indexError, [])
  | p :: _ =>
    let payload : Payload := [ContentItem.text input_prompt, ContentItem.image p]
    (svc payload, [payload])

/-- The fixed diagnostic prompt of the submit handler (src/Leaf.py
lines 95-114). -/
def input_prompt : String :=
  "You are an expert agricultural scientist and certified plant pathologist. Your task is to analyze the provided image of a plant leaf and give a complete, detailed diagnosis and recommendation.\n\nStructure your response into the following three sections using markdown headings:\n\n" ++
  "### 1. Plant & Disease Identification\n- **Plant Species (if identifiable):** [Identify the specific plant/crop]\n- **Diagnosis:** [Identify the most probable disease, pest, or deficiency (e.g., Late Blight, Spider Mites, Iron Deficiency)]\n- **Cause Type:** [e.g., Fungal, Bacterial, Viral, Insect Pest, Nutrient Deficiency, Environmental Stress]\n\n" ++
  "### 2. Symptom Analysis\n- Describe the specific visual symptoms observed in the image (e.g., presence of chlorosis, necrosis, lesions, mold, wilting pattern).\n- Explain what these symptoms indicate about the health of the plant and the progression of the issue.\n\n" ++
  "### 3. Recommended Treatment & Prevention\n- **Immediate Treatment:** Provide specific, actionable steps to treat the identified issue (e.g., suggested fungicide/pesticide type, proper pruning, isolation).\n- **Long-term Prevention:** Suggest strategies for preventing recurrence, including optimal soil management, watering schedules, and proper environmental conditions.\n\nMaintain a professional, informative, and easy-to-understand tone suitable for a gardener or farmer."

/-- The warning shown when the user submits without any image
(src/Leaf.py line 88). -/
def warning_message : String :=
  "Please upload a leaf image or take a picture to proceed with the analysis."

/-- What the UI renders at the end of one submission: the warning for a
missing image, the model's report rendered as markdown, or an error
message from one of the `except` blocks. -/
inductive UIOutput
  | warning (msg : String)
  | report (text : String)
  | errorMsg (msg : String)
deriving DecidableEq, Repr

/-- The message produced by the `except` blocks of the submit handler
(src/Leaf.py lines 124-130): `FileNotFoundError` is caught first and
rendered as a file error, every other exception generically. -/
def except_message : PyExc → String
  | .fileNotFoundError msg => "File Error: " ++ msg
  | e => "An unexpected error occurred during analysis: " ++ e.message

/-- Embedding of the submit-button handler (src/Leaf.py lines 86-130).
If neither input source is present it shows the warning and stops; otherwise
it runs `input_image_setup` then `get_gemini_response` inside `try`, renders
the response as markdown on success, and converts a raised exception into an
error message.  The second component lists the payloads sent to the external
service during the submission. -/
def submit_handler (uploaded_file : Option UploadedFile)
    (captured_image_bytes : Option Bytes) (svc : Service) :
    UIOutput × List Payload :=
  if uploaded_file = none ∧ captured_image_bytes = none then
    (UIOutput.warning warning_message, [])
  else
    match input_image_setup uploaded_file captured_image_bytes with
    | Except.error e => (UIOutput.errorMsg (except_message e), [])
    | Except.ok image_data =>
      match get_gemini_response svc input_prompt image_data with
      | (Except.ok response, calls) => (UIOutput.report response, calls)
      | (Except.error e, calls) => (UIOutput.errorMsg (except_message e), calls)

/-- `true` exactly when the result is a successfully returned string. -/
def isOkResult : Except PyExc String → Bool
  | Except.ok _ => true
  | Except.error _ => false

/-- Claim C1: for every uploaded file with MIME type M and byte content B,
`input_image_setup` returns the record with exactly that MIME type and those
bytes, regardless of whether captured bytes are also supplied. -/
theorem uploaded_file_fields_passed_verbatim (f : UploadedFile) (c : Option Bytes) :
    input_image_setup (some f) c =
      Except.ok [{ mime_type := f.type, data := f.getvalue }] := rfl

/-- Claim C2: for every byte sequence supplied as captured bytes with no
uploaded file present, `input_image_setup` returns a record with the fixed
MIME type "image/jpeg" and exactly those bytes, without inspecting the byte
content. -/
theorem captured_bytes_fixed_jpeg (b : Bytes) :
    input_image_setup none (some b) =
      Except.ok [{ mime_type := "image/jpeg", data := b }] := rfl

/-- Claim C3: with both sources absent, `input_image_setup` fails with the
missing-input error (realized in the code as `FileNotFoundError` with its
fixed message), a recoverable `Except.error` value, and returns no image
record. -/
theorem missing_input_raises :
    input_image_setup none none =
        Except.error (PyExc.fileNotFoundError "No file uploaded or image captured.")
      ∧ ∀ parts, input_image_setup none none ≠ Except.ok parts := by
  refine ⟨rfl, ?_⟩
  intro parts h
  simp [input_image_setup] at h

/-- Claim C4: for every instruction, if the external service call raises,
`get_gemini_response` fails with the propagated exception wrapping the
underlying cause and never returns a string; and at the fixed instruction the
submit handler actually passes, the handler catches the failure and surfaces
it as a user-visible error message rather than crashing. -/
theorem service_failure_propagates (svc : Service) (prompt : String)
    (u : Option UploadedFile) (c : Option Bytes) (p : ImagePart)
    (rest : List ImagePart) (cause : String)
    (hsetup : input_image_setup u c = Except.ok (p :: rest))
    (hsvc : svc [ContentItem.text prompt, ContentItem.image p] =
      Except.error (PyExc.serviceExc cause)) :
    (get_gemini_response svc prompt (p :: rest)).1 =
        Except.error (PyExc.serviceExc cause)
      ∧ isOkResult (get_gemini_response svc prompt (p :: rest)).1 = false
      ∧ (prompt = input_prompt →
          (submit_handler u c svc).1 =
            UIOutput.errorMsg ("An unexpected error occurred during analysis: " ++ cause)) := by
  have hne : ¬ (u = none ∧ c = none) := by
    rintro ⟨hu, hc⟩
    subst hu; subst hc
    simp [input_image_setup] at hsetup
  refine ⟨?_, ?_, ?_⟩
  · simp [get_gemini_response, hsvc]
  · simp [get_gemini_response, hsvc, isOkResult]
  · intro hp
    subst hp
    simp only [submit_handler, if_neg hne, hsetup]
    simp [get_gemini_response, hsvc, except_message, PyExc.message]

/-- Witness for claim C4 at a concrete failing service and uploaded file,
exercising the handler conjunct at the fixed instruction. -/
theorem service_failure_propagates_witness :
    (get_gemini_response (fun _ => Except.error (PyExc.serviceExc "boom"))
        input_prompt [{ mime_type := "image/png", data := [1] }]).1 =
        Except.error (PyExc.serviceExc "boom")
      ∧ isOkResult (get_gemini_response (fun _ => Except.error (PyExc.serviceExc "boom"))
          input_prompt [{ mime_type := "image/png", data := [1] }]).1 = false
      ∧ (submit_handler (some { getvalue := [1], type := "image/png" }) none
          (fun _ => Except.error (PyExc.serviceExc "boom"))).1 =
          UIOutput.errorMsg ("An unexpected error occurred during analysis: " ++ "boom") := by
  have h := service_failure_propagates
    (fun _ => Except.error (PyExc.serviceExc "boom")) input_prompt
    (some { getvalue := [1], type := "image/png" }) none
    { mime_type := "image/png", data := [1] } [] "boom" rfl rfl
  exact ⟨h.1, h.2.1, h.2.2 rfl⟩

/-- Claim C5: on the success path `get_gemini_response` returns the external
service's response text unmodified, identical to what the service returned. -/
theorem response_text_returned_verbatim (svc : Service) (prompt : String)
    (p : ImagePart) (rest : List ImagePart) (s : String)
    (hsvc : svc [ContentItem.text prompt, ContentItem.image p] = Except.ok s) :
    (get_gemini_response svc prompt (p :: rest)).1 = Except.ok s := by
  simp [get_gemini_response, hsvc]

/-- Witness for claim C5 at a concrete service and response string. -/
theorem response_text_returned_verbatim_witness :
    (get_gemini_response (fun _ => Except.ok "hello report")
        "analyze" [{ mime_type := "image/png", data := [1, 2] }]).1 =
      Except.ok "hello report" :=
  response_text_returned_verbatim (fun _ => Except.ok "hello report") "analyze"
    { mime_type := "image/png", data := [1, 2] } [] "hello report" rfl

/-- Claim C6: when both an uploaded file and captured bytes are supplied,
`input_image_setup` deterministically picks the uploaded file: the record's
fields come from the uploaded file and the captured bytes are ignored (the
result does not depend on them). -/
theorem both_sources_uploaded_precedence (f : UploadedFile) (b : Bytes) :
    input_image_setup (some f) (some b) =
      Except.ok [{ mime_type := f.type, data := f.getvalue }] := rfl

/-- Claim C7: a submission with no uploaded file and no captured bytes
produces the warning message and sends zero payloads to the external service,
for every possible service. -/
theorem no_input_warning_no_calls (svc : Service) :
    submit_handler none none svc = (UIOutput.warning warning_message, []) := by
  simp [submit_handler]

/-- Claim C8: `input_image_setup` is a pure, deterministic transformation:
two calls with equal inputs return equal results (the embedding as a total
function of its two arguments reflects that the code reads nothing but its
arguments and mutates no outside state). -/
theorem normalize_deterministic (u u' : Option UploadedFile) (c c' : Option Bytes)
    (hu : u = u') (hc : c = c') :
    input_image_setup u c = input_image_setup u' c' := by rw [hu, hc]

/-- Witness for claim C8 at a concrete repeated input. -/
theorem normalize_deterministic_witness :
    input_image_setup (some { getvalue := [7], type := "image/png" }) none =
      input_image_setup (some { getvalue := [7], type := "image/png" }) none :=
  normalize_deterministic (some { getvalue := [7], type := "image/png" })
    (some { getvalue := [7], type := "image/png" }) none none rfl rfl

/-- Claim C9 counterexample: it is not true that every successfully returned
record has non-empty MIME type and non-empty bytes — an uploaded file with
empty byte content (and an empty reported type) passes through unvalidated. -/
theorem record_nonempty_fields_cex :
    ¬ (∀ (u : Option UploadedFile) (c : Option Bytes) (parts : List ImagePart),
        input_image_setup u c = Except.ok parts →
        ∀ r ∈ parts, r.mime_type ≠ "" ∧ r.data ≠ []) := by
  intro h
  have hr := h (some { getvalue := [], type := "image/png" }) none
    [{ mime_type := "image/png", data := [] }] rfl
    { mime_type := "image/png", data := [] } (by simp)
  exact hr.2 rfl

/-- Claim C9 as amended: every successfully returned record is fully
constructed — exactly one part with both fields set, their values taken
verbatim from the chosen source (so the captured path always has the
non-empty MIME type "image/jpeg") — but non-emptiness of the uploaded file's
bytes or reported type is not enforced. -/
theorem record_fully_constructed (u : Option UploadedFile) (c : Option Bytes)
    (parts : List ImagePart) (h : input_image_setup u c = Except.ok parts) :
    ∃ r, parts = [r] ∧
      ((∃ f, u = some f ∧ r.mime_type = f.type ∧ r.data = f.getvalue) ∨
       (u = none ∧ ∃ b, c = some b ∧ r.mime_type = "image/jpeg" ∧ r.data = b ∧
         r.mime_type ≠ "")) := by
  cases u with
  | some f =>
    simp only [input_image_setup, Except.ok.injEq] at h
    exact ⟨_, h.symm, Or.inl ⟨f, rfl, rfl, rfl⟩⟩
  | none =>
    cases c with
    | some b =>
      simp only [input_image_setup, Except.ok.injEq] at h
      refine ⟨_, h.symm, Or.inr ⟨rfl, b, rfl, rfl, rfl, ?_⟩⟩
      simp
    | none => simp [input_image_setup] at h

/-- Witness for amended claim C9 at a concrete uploaded file. -/
theorem record_fully_constructed_witness :
    ∃ r, [({ mime_type := "image/png", data := [3] } : ImagePart)] = [r] ∧
      ((∃ f, (some { getvalue := [3], type := "image/png" } : Option UploadedFile) =
          some f ∧ r.mime_type = f.type ∧ r.data = f.getvalue) ∨
       ((some { getvalue := [3], type := "image/png" } : Option UploadedFile) = none ∧
        ∃ b, (none : Option Bytes) = some b ∧ r.mime_type = "image/jpeg" ∧
          r.data = b ∧ r.mime_type ≠ "")) :=
  record_fully_constructed (some { getvalue := [3], type := "image/png" }) none
    [{ mime_type := "image/png", data := [3] }] rfl

/-- Claim C10: `get_gemini_response` consults only the first element of the
image-parts list: for two lists agreeing on their first element, the whole
outcome — the result and the payloads sent to the service — is identical, so
any additional elements are ignored. -/
theorem first_part_only_consulted (svc : Service) (prompt : String)
    (l1 l2 : List ImagePart) (h : l1.head? = l2.head?) :
    get_gemini_response svc prompt l1 = get_gemini_response svc prompt l2 := by
  cases l1 with
  | nil =>
    cases l2 with
    | nil => rfl
    | cons q t => simp at h
  | cons p t =>
    cases l2 with
    | nil => simp at h
    | cons q t2 =>
      simp only [List.head?_cons, Option.some.injEq] at h
      subst h
      rfl

/-- Witness for claim C10 at two concrete lists sharing their head. -/
theorem first_part_only_consulted_witness :
    get_gemini_response (fun _ => Except.ok "ok") "analyze"
        [{ mime_type := "image/png", data := [1] }] =
      get_gemini_response (fun _ => Except.ok "ok") "analyze"
        [{ mime_type := "image/png", data := [1] },
         { mime_type := "image/jpeg", data := [9] }] :=
  first_part_only_consulted (fun _ => Except.ok "ok") "analyze"
    [{ mime_type := "image/png", data := [1] }]
    [{ mime_type := "image/png", data := [1] },
     { mime_type := "image/jpeg", data := [9] }] rfl

end Leaf
